import Mathlib

/-!
Shallow embedding of the BLE telemetry web app: the frame decoder
(`handleData` in the BLE module and its demo-override revision), the
statistics aggregator (`handleData`, `updateStats`, `resetStats` in the
App module), the 1-second connection monitor machinery (`checkConnection`,
`disconnect`, `handleDisconnect`, the commit tail of `_connectAndSetup`),
and the watchdog revision of the BLE module.
-/

namespace BleApp

/-- JavaScript `Math.round`: round half toward positive infinity. -/
def jsRound (q : ℚ) : ℤ := ⌊q + 1/2⌋

/-- `DataView.getUint16(i, true)`: unsigned 16-bit little-endian. -/
def u16LE (b0 b1 : ℕ) : ℕ := b0 + 256 * b1

/-- `DataView.getInt16(i, true)`: signed 16-bit little-endian. -/
def i16LE (b0 b1 : ℕ) : ℤ :=
  let u := u16LE b0 b1
  if u < 32768 then (u : ℤ) else (u : ℤ) - 65536

/-- `DataView.getUint32(i, true)`: unsigned 32-bit little-endian. -/
def u32LE (b0 b1 b2 b3 : ℕ) : ℕ := b0 + 256 * b1 + 65536 * b2 + 16777216 * b3

/-- `bytes[i]`; every read in the decoder is range-guarded in the source,
so the default is never actually consulted on the guarded paths. -/
def byteAt (bytes : List ℕ) (i : ℕ) : ℕ := bytes.getD i 0

/-- The `result` object built by `handleData` in the BLE module. -/
structure TelemetryRecord where
  version : ℕ
  sequence : ℕ
  label : ℕ
  padding : ℕ
  rawProbQ15 : ℤ
  confidence : ℚ
  timestamp : ℕ
  crc : ℕ
  confidencePercent : ℤ
  deriving Repr, DecidableEq

/-- The decode portion of `handleData` in the watchdog and bounded-retry
revisions of the BLE module: reject frames shorter than 8 bytes, read the
header tolerantly, parse version/sequence/label/padding at fixed offsets,
the signed Q15 confidence at offset 6, the timestamp at offset 8 when at
least 12 bytes are present, the CRC at offset 12 when at least 14 bytes
are present, and derive
`confidencePercent = max(0, min(100, round(|rawProb / 32768| * 100)))`. -/
def decodeFrame (bytes : List ℕ) : Option TelemetryRecord :=
  if bytes.length < 8 then none
  else
    let rawProb : ℤ := if 8 ≤ bytes.length then i16LE (byteAt bytes 6) (byteAt bytes 7) else 0
    let confidence : ℚ := (rawProb : ℚ) / 32768
    some
      { version := byteAt bytes 2
        sequence := byteAt bytes 3
        label := byteAt bytes 4
        padding := byteAt bytes 5
        rawProbQ15 := rawProb
        confidence := confidence
        timestamp :=
          if 12 ≤ bytes.length then
            u32LE (byteAt bytes 8) (byteAt bytes 9) (byteAt bytes 10) (byteAt bytes 11)
          else 0
        crc := if 14 ≤ bytes.length then u16LE (byteAt bytes 12) (byteAt bytes 13) else 0
        confidencePercent := max 0 (min 100 (jsRound (|confidence| * 100))) }

/-- The decode portion of `handleData` in `ble.js` (the connection-monitor
revision): the same parse, followed by the demo-mode override that replaces
the label with 3, the confidence with `0.85 + Math.random() * 0.15`, and
the percentage with `Math.round(confidence * 100)`. `rand` stands for the
`Math.random()` sample, a value in `[0, 1)`. -/
def decodeFrameDemo (bytes : List ℕ) (rand : ℚ) : Option TelemetryRecord :=
  if bytes.length < 8 then none
  else
    let rawProb : ℤ := if 8 ≤ bytes.length then i16LE (byteAt bytes 6) (byteAt bytes 7) else 0
    let confidence : ℚ := 17/20 + rand * (3/20)
    some
      { version := byteAt bytes 2
        sequence := byteAt bytes 3
        label := 3
        padding := byteAt bytes 5
        rawProbQ15 := rawProb
        confidence := confidence
        timestamp :=
          if 12 ≤ bytes.length then
            u32LE (byteAt bytes 8) (byteAt bytes 9) (byteAt bytes 10) (byteAt bytes 11)
          else 0
        crc := if 14 ≤ bytes.length then u16LE (byteAt bytes 12) (byteAt bytes 13) else 0
        confidencePercent := jsRound (confidence * 100) }

/-- The well-formed 14-byte frame of the spec: header `A5 5A`, version 1,
sequence 7, label 2, padding 0, raw Q15 confidence 16384 (`0x4000`
little-endian at offsets 6-7), timestamp 0, CRC 0. -/
def c1Frame : List ℕ := [0xA5, 0x5A, 1, 7, 2, 0, 0x00, 0x40, 0, 0, 0, 0, 0, 0]

/-- The same frame with raw Q15 confidence -32768 (`0x8000` little-endian). -/
def c1FrameNeg : List ℕ := [0xA5, 0x5A, 1, 7, 2, 0, 0x00, 0x80, 0, 0, 0, 0, 0, 0]

/-- One entry of `App.stats.history`: `{ label, confidence, time }`, where
the `confidence` key stores the record's `confidencePercent`. -/
structure HistEntry where
  label : ℕ
  confidence : ℤ
  time : ℤ
  deriving Repr, DecidableEq

/-- `App.stats.classCounts`, one counter per recognised label 0-3. -/
structure ClassCounts where
  c0 : ℕ
  c1 : ℕ
  c2 : ℕ
  c3 : ℕ
  deriving Repr, DecidableEq

/-- `App.stats`. `lastSequence = -1` means unset; `startTime = none`
models the initial `null`. -/
structure SessionStats where
  packetsReceived : ℕ
  packetsPerMinute : ℤ
  missingPackets : ℕ
  lastSequence : ℤ
  startTime : Option ℤ
  classCounts : ClassCounts
  history : List HistEntry
  deriving Repr, DecidableEq

/-- The initial `App.stats` object literal. -/
def initialStats : SessionStats :=
  { packetsReceived := 0
    packetsPerMinute := 0
    missingPackets := 0
    lastSequence := -1
    startTime := none
    classCounts := ⟨0, 0, 0, 0⟩
    history := [] }

/-- `App.resetStats()`: reinitialise every counter and set
`startTime = Date.now()`. -/
def resetStats (now : ℤ) : SessionStats :=
  { initialStats with startTime := some now }

/-- `this.stats.classCounts[label]++` for a label already known to be ≤ 3. -/
def bumpClass (cc : ClassCounts) (label : ℕ) : ClassCounts :=
  if label = 0 then { cc with c0 := cc.c0 + 1 }
  else if label = 1 then { cc with c1 := cc.c1 + 1 }
  else if label = 2 then { cc with c2 := cc.c2 + 1 }
  else { cc with c3 := cc.c3 + 1 }

/-- `App.handleData(data)`: increment `packetsReceived`; when a previous
sequence exists and the new sequence is not `(lastSequence + 1) % 256`,
increment `missingPackets` by one; rebase `lastSequence`; bump the class
count for labels ≤ 3; append a history entry and evict the oldest once the
buffer exceeds 60 entries. -/
def ingest (d : TelemetryRecord) (now : ℤ) (s : SessionStats) : SessionStats :=
  let missing :=
    if 0 ≤ s.lastSequence ∧ (d.sequence : ℤ) ≠ (s.lastSequence + 1) % 256 then
      s.missingPackets + 1
    else s.missingPackets
  let cc := if d.label ≤ 3 then bumpClass s.classCounts d.label else s.classCounts
  let hist0 := s.history ++ [⟨d.label, d.confidencePercent, now⟩]
  let hist := if 60 < hist0.length then hist0.tail else hist0
  { s with
    packetsReceived := s.packetsReceived + 1
    missingPackets := missing
    lastSequence := (d.sequence : ℤ)
    classCounts := cc
    history := hist }

/-- `App.updateStats()` (the per-second tick): with a started session,
`elapsed = Math.floor((now - startTime) / 1000)` seconds; when
`elapsed / 60` is positive, recompute
`packetsPerMinute = Math.round(packetsReceived / (elapsed / 60))`. -/
def updateStats (now : ℤ) (s : SessionStats) : SessionStats :=
  match s.startTime with
  | none => s
  | some t =>
      let elapsed : ℤ := ⌊((now - t : ℤ) : ℚ) / 1000⌋
      let elapsedMinutes : ℚ := (elapsed : ℚ) / 60
      if 0 < elapsedMinutes then
        { s with packetsPerMinute := jsRound ((s.packetsReceived : ℚ) / elapsedMinutes) }
      else s

/-- The notification pipeline from BLE `handleData` into `App.handleData`:
a frame that fails to decode delivers no record downstream. -/
def processFrame (bytes : List ℕ) (now : ℤ) (s : SessionStats) : SessionStats :=
  match decodeFrame bytes with
  | none => s
  | some d => ingest d now s

/-- A record with a given sequence number, used to drive the aggregator. -/
def seqRec (n : ℕ) : TelemetryRecord :=
  { version := 1, sequence := n, label := 0, padding := 0, rawProbQ15 := 0,
    confidence := 0, timestamp := 0, crc := 0, confidencePercent := 0 }

/-- A record whose `confidencePercent` identifies it in the history. -/
def histRec (n : ℕ) : TelemetryRecord :=
  { seqRec n with confidencePercent := (n : ℤ) }

/-- Feed a list of records into a fresh session (all at time 0). -/
def ingestRecs (rs : List TelemetryRecord) : SessionStats :=
  rs.foldl (fun s r => ingest r 0 s) (resetStats 0)

/-- Feed records carrying the given sequence numbers into a fresh session. -/
def ingestSeqs (seqs : List ℕ) : SessionStats :=
  ingestRecs (seqs.map seqRec)

/-- State of the BLE module in the connection-monitor revision of `ble.js`.
`deviceName = none` models a cleared `this.device`; `gattConnected` is the
transport-level `device.gatt.connected` flag; `notifications` logs every
`onConnectionChange(connected, name)` call in order;
`pendingDisconnectEvent` records that `gatt.disconnect()` was called on a
live link, so the platform will still fire `gattserverdisconnected`. -/
structure LinkState where
  deviceName : Option String
  gattConnected : Bool
  isConnected : Bool
  characteristic : Bool
  autoReconnect : Bool
  monitorRunning : Bool
  isReconnecting : Bool
  reconnectAttempts : ℕ
  notifications : List (Bool × Option String)
  pendingDisconnectEvent : Bool
  deriving Repr, DecidableEq

/-- `BLE.disconnect()` in the monitor revision: disable auto-reconnect,
stop the monitor, drop the transport link if it is live (which leaves a
`gattserverdisconnected` event pending), clear the connection flags and the
retained device handle, emit `(false, null)`, and re-enable auto-reconnect
for the next connection. -/
def disconnect (s : LinkState) : LinkState :=
  let s1 := { s with autoReconnect := false, monitorRunning := false }
  let s2 :=
    if s1.deviceName.isSome ∧ s1.gattConnected then
      { s1 with gattConnected := false, pendingDisconnectEvent := true }
    else s1
  let s3 := { s2 with isConnected := false, characteristic := false, deviceName := none }
  let s4 := { s3 with notifications := s3.notifications ++ [(false, none)] }
  { s4 with autoReconnect := true }

/-- `BLE.handleDisconnect()` in the monitor revision: clear the connection
flags but keep the device handle and the monitor, then emit `(false, null)`. -/
def handleDisconnect (s : LinkState) : LinkState :=
  let s1 := { s with isConnected := false, characteristic := false }
  { s1 with notifications := s1.notifications ++ [(false, none)] }

/-- The synchronous commit tail of `_connectAndSetup` after
`startNotifications()` resolves: set `isConnected = true`, zero
`reconnectAttempts`, restart the monitor, then call
`onConnectionChange(true, this.device.name)`. When the device handle was
cleared in the meantime, evaluating `this.device.name` throws before the
callback runs; the returned flag records that throw, and the state
mutations before it stand regardless. -/
def commitSetup (s : LinkState) : LinkState × Bool :=
  let s1 := { s with isConnected := true, reconnectAttempts := 0, monitorRunning := true }
  match s1.deviceName with
  | some n => ({ s1 with notifications := s1.notifications ++ [(true, some n)] }, false)
  | none => (s1, true)

/-- Resolution of an in-flight auto-reconnect attempt inside
`checkConnection`: the commit tail of `_connectAndSetup` runs (any throw is
swallowed by the catch), then `isReconnecting` is cleared. -/
def resolveReconnect (s : LinkState) : LinkState :=
  { (commitSetup s).1 with isReconnecting := false }

/-- The events the monitor machinery interleaves: a 1-second
`checkConnection` tick, the resolution (successful or failed) of a pending
reconnect attempt, a user `disconnect()`, and a transport-level drop
delivered through `gattserverdisconnected`. -/
inductive LinkEv where
  | tick
  | resolveOk
  | resolveFail
  | userDisconnect
  | transportDrop
  deriving Repr, DecidableEq

/-- The monitor machinery together with the number of reconnect attempts
currently in flight (started by a tick and not yet resolved). -/
structure Monitor where
  link : LinkState
  inFlight : ℕ
  deriving Repr, DecidableEq

/-- One event step. A tick is `checkConnection`: it returns at once while
`isReconnecting` is set; otherwise, when the retained device reports an
inactive transport and auto-reconnect is on, it starts one attempt
(incrementing the in-flight count and setting the guard). A resolution
finishes one pending attempt and clears the guard. User disconnects and
transport drops run the corresponding handlers, neither of which touches
the guard. -/
def stepEv (m : Monitor) (e : LinkEv) : Monitor :=
  match e with
  | .tick =>
      if m.link.isReconnecting then m
      else if m.link.deviceName.isSome ∧ m.link.gattConnected = false then
        if m.link.autoReconnect then
          { link := { m.link with
              reconnectAttempts := m.link.reconnectAttempts + 1, isReconnecting := true },
            inFlight := m.inFlight + 1 }
        else m
      else m
  | .resolveOk =>
      if m.inFlight = 0 then m
      else { link := resolveReconnect m.link, inFlight := m.inFlight - 1 }
  | .resolveFail =>
      if m.inFlight = 0 then m
      else { link := { m.link with isReconnecting := false }, inFlight := m.inFlight - 1 }
  | .userDisconnect => { m with link := disconnect m.link }
  | .transportDrop =>
      { m with link := handleDisconnect { m.link with gattConnected := false } }

/-- Run a list of events in order. -/
def runEvs (m : Monitor) (evs : List LinkEv) : Monitor := evs.foldl stepEv m

/-- A freshly connected link, as left by a successful `_connectAndSetup`. -/
def connectedLink : LinkState :=
  { deviceName := some "IoT_ML_Sensor"
    gattConnected := true
    isConnected := true
    characteristic := true
    autoReconnect := true
    monitorRunning := true
    isReconnecting := false
    reconnectAttempts := 0
    notifications := []
    pendingDisconnectEvent := false }

/-- The monitor machinery over a freshly connected link, no attempt pending. -/
def monitorInit : Monitor := { link := connectedLink, inFlight := 0 }

/-- A link whose transport dropped silently, where a monitor tick has
already started a reconnect attempt that is now suspended at its last
await point (`startNotifications()`), the state in which a user
`disconnect()` can race the attempt. -/
def inflightReconnectState : LinkState :=
  { deviceName := some "IoT_ML_Sensor"
    gattConnected := false
    isConnected := true
    characteristic := true
    autoReconnect := true
    monitorRunning := true
    isReconnecting := true
    reconnectAttempts := 1
    notifications := []
    pendingDisconnectEvent := false }

/-- State of the BLE module in the watchdog (signal-loss) revision. -/
structure WatchLink where
  deviceName : Option String
  gattConnected : Bool
  isConnected : Bool
  characteristic : Bool
  watchdogRunning : Bool
  lastDataTime : ℤ
  notifications : List (Bool × Option String)
  pendingDisconnectEvent : Bool
  deriving Repr, DecidableEq

/-- `handleDisconnect()` in the watchdog revision: stop the watchdog, clear
the connection flags and the device handle, emit `(false, null)`. -/
def wHandleDisconnect (s : WatchLink) : WatchLink :=
  let s1 := { s with
    watchdogRunning := false, isConnected := false, deviceName := none, characteristic := false }
  { s1 with notifications := s1.notifications ++ [(false, none)] }

/-- `disconnect()` in the watchdog revision: drop the transport link if it
is live (leaving the platform's `gattserverdisconnected` event pending),
then run `handleDisconnect()` synchronously. -/
def wDisconnect (s : WatchLink) : WatchLink :=
  let s1 :=
    if s.deviceName.isSome ∧ s.gattConnected then
      { s with gattConnected := false, pendingDisconnectEvent := true }
    else s
  wHandleDisconnect s1

/-- Delivery of a pending `gattserverdisconnected` event: the listener
registered at connect time invokes `handleDisconnect()` once more. -/
def wDeliverDisconnectEvent (s : WatchLink) : WatchLink :=
  if s.pendingDisconnectEvent then wHandleDisconnect { s with pendingDisconnectEvent := false }
  else s

/-- A successful `_connectAndSetup` in the watchdog revision, run without
interference: acquire the transport and characteristic, subscribe, set
`isConnected = true`, stamp `lastDataTime`, start the watchdog, and emit
`(true, device.name)`. -/
def wConnectSuccess (now : ℤ) (s : WatchLink) : WatchLink :=
  let s1 := { s with
    characteristic := true, gattConnected := true, isConnected := true,
    lastDataTime := now, watchdogRunning := true }
  match s1.deviceName with
  | some n => { s1 with notifications := s1.notifications ++ [(true, some n)] }
  | none => s1

/-- A transport-level disconnect arriving on its own: the link goes down
and the `gattserverdisconnected` listener runs `handleDisconnect()`. -/
def wTransportDisconnect (s : WatchLink) : WatchLink :=
  wHandleDisconnect { s with gattConnected := false }

/-- One watchdog tick: while nominally connected, force a
disconnect-equivalent transition when no frame arrived for more than
3000 ms. -/
def wWatchdogTick (now : ℤ) (s : WatchLink) : WatchLink :=
  if s.isConnected = false then s
  else if 3000 < now - s.lastDataTime then wHandleDisconnect s
  else s

/-- A connected state of the watchdog revision. -/
def wConnectedState : WatchLink :=
  { deviceName := some "IoT_ML_Sensor"
    gattConnected := true
    isConnected := true
    characteristic := true
    watchdogRunning := true
    lastDataTime := 0
    notifications := []
    pendingDisconnectEvent := false }

/-- The app-level session: the link machinery, the aggregator state, and
the connected flag that `updateConnectionUI` derives from notifications. -/
structure Session where
  link : LinkState
  stats : SessionStats
  uiConnected : Bool
  deriving Repr, DecidableEq

/-- Resolution of a monitor-driven auto-reconnect at session level: only
the link machinery changes; the emitted notification (when the commit
reaches it) drives `updateConnectionUI`, which touches no statistic. -/
def sessionMonitorReconnect (s : Session) : Session :=
  let pair := commitSetup s.link
  { link := { pair.1 with isReconnecting := false }
    stats := s.stats
    uiConnected := if pair.2 then s.uiConnected else true }

/-- `App.connect()` on its success path: `BLE.reconnect()`/`BLE.connect()`
establishes the link (emitting `(true, name)`), then the app calls
`resetStats()`. -/
def sessionUserConnect (now : ℤ) (name : String) (s : Session) : Session :=
  let l := { s.link with
    deviceName := some name, gattConnected := true, characteristic := true,
    isConnected := true, reconnectAttempts := 0, monitorRunning := true,
    notifications := s.link.notifications ++ [(true, some name)] }
  { link := l, stats := resetStats now, uiConnected := true }

/-- Evaluation rule for `jsRound`: it returns `z` whenever `z` brackets
`q + 1/2` from below within one unit. -/
lemma jsRound_eq {q : ℚ} {z : ℤ} (h1 : (z : ℚ) ≤ q + 1/2) (h2 : q + 1/2 < z + 1) :
    jsRound q = z := by
  rw [jsRound, Int.floor_eq_iff]
  refine ⟨h1, by exact_mod_cast h2⟩

/-- The in-flight bookkeeping invariant of the monitor machinery: the
number of pending reconnect attempts is 1 exactly while the
`isReconnecting` guard is set, and 0 otherwise. -/
def flightInv (m : Monitor) : Prop :=
  m.inFlight = if m.link.isReconnecting then 1 else 0

/-- `disconnect` never touches the `isReconnecting` guard. -/
lemma disconnect_isReconnecting (s : LinkState) :
    (disconnect s).isReconnecting = s.isReconnecting := by
  simp only [disconnect]
  split <;> rfl

/-- Every event step preserves the in-flight bookkeeping invariant. -/
lemma stepEv_flightInv (m : Monitor) (e : LinkEv) (h : flightInv m) :
    flightInv (stepEv m e) := by
  cases e with
  | tick =>
      simp only [stepEv]
      split_ifs with h1 h2 h3
      · exact h
      · simp only [flightInv, h1, if_false] at h
        simp [flightInv, h]
      · exact h
      · exact h
  | resolveOk =>
      simp only [stepEv]
      split_ifs with h1
      · exact h
      · simp only [flightInv] at h ⊢
        rcases hb : m.link.isReconnecting with _ | _
        · rw [hb] at h; simp at h; exact absurd h h1
        · rw [hb] at h; simp at h
          simp [resolveReconnect, h]
  | resolveFail =>
      simp only [stepEv]
      split_ifs with h1
      · exact h
      · simp only [flightInv] at h ⊢
        rcases hb : m.link.isReconnecting with _ | _
        · rw [hb] at h; simp at h; exact absurd h h1
        · rw [hb] at h; simp at h
          simp [h]
  | userDisconnect =>
      simp only [flightInv, stepEv, disconnect_isReconnecting] at h ⊢
      exact h
  | transportDrop =>
      simp only [flightInv, stepEv, handleDisconnect] at h ⊢
      exact h

/-- Running any event sequence preserves the in-flight invariant. -/
lemma runEvs_flightInv (evs : List LinkEv) :
    ∀ m : Monitor, flightInv m → flightInv (runEvs m evs) := by
  induction evs with
  | nil => intro m h; exact h
  | cons e t ih =>
      intro m h
      exact ih (stepEv m e) (stepEv_flightInv m e h)

/-- C1: for every frame of at least 8 bytes, the decoder of the
watchdog/bounded-retry revisions derives
`confidencePercent = min(100, max(0, round(|raw / 32768| * 100)))` from the
signed 16-bit little-endian value at offset 6; on the spec's 14-byte frame
(header `A5 5A`, version 1, sequence 7, label 2, raw confidence 16384) it
yields label 2 and percent 50, and raw -32768 yields percent 100. The
`ble.js` revision, however, then applies its demo-mode override: on the
very same frame it reports label 3 (never 2) and a percentage
`round(85 + 15·rand)` driven by `Math.random()`, so the claim fails on
`ble.js` as shipped. -/
theorem c1_confidence_formula_vs_demo_override (bytes : List ℕ) (h8 : 8 ≤ bytes.length)
    (r : ℚ) :
    (decodeFrame bytes).map TelemetryRecord.confidencePercent =
      some (min 100 (max 0 (jsRound
        (|(i16LE (byteAt bytes 6) (byteAt bytes 7) : ℚ) / 32768| * 100))))
    ∧ (decodeFrame c1Frame).map TelemetryRecord.label = some 2
    ∧ (decodeFrame c1Frame).map TelemetryRecord.confidencePercent = some 50
    ∧ (decodeFrame c1FrameNeg).map TelemetryRecord.confidencePercent = some 100
    ∧ (decodeFrameDemo c1Frame r).map TelemetryRecord.label = some 3
    ∧ (decodeFrameDemo c1Frame r).map TelemetryRecord.confidencePercent =
        some (jsRound (85 + 15 * r)) := by
  refine ⟨?_, rfl, ?_, ?_, rfl, ?_⟩
  · have h7 : ¬ bytes.length < 8 := by omega
    simp [decodeFrame, h7, h8]
    omega
  · have habs : |(16384 : ℚ) / 32768| = 1 / 2 := by
      rw [abs_of_nonneg] <;> norm_num
    have h : jsRound (|(16384 : ℚ) / 32768| * 100) = 50 := by
      rw [habs]
      exact jsRound_eq (by norm_num) (by norm_num)
    simp [decodeFrame, c1Frame, byteAt, i16LE, u16LE]
    rw [h]
    omega
  · simp [decodeFrame, c1FrameNeg, byteAt, i16LE, u16LE]
    rw [show jsRound (100 : ℚ) = 100 from jsRound_eq (by norm_num) (by norm_num)]
    omega
  · simp [decodeFrameDemo, c1Frame]
    rw [show (17/20 + r * (3/20)) * 100 = 85 + 15 * r from by ring]

/-- Witness for C1 at the spec's frame and a concrete random sample. -/
theorem c1_confidence_formula_vs_demo_override_witness :
    8 ≤ c1Frame.length
    ∧ (decodeFrame c1Frame).map TelemetryRecord.confidencePercent =
        some (min 100 (max 0 (jsRound
          (|(i16LE (byteAt c1Frame 6) (byteAt c1Frame 7) : ℚ) / 32768| * 100)))) :=
  ⟨by decide, (c1_confidence_formula_vs_demo_override c1Frame (by decide) 0).1⟩

/-- C2: the decoder of `ble.js` is not a pure function of the input bytes:
because of the demo-mode override, its output depends on the
`Math.random()` sample, so two invocations on the very same valid 14-byte
frame can return records differing in `confidencePercent` (85 versus 93
for samples 0 and 1/2). -/
theorem c2_demo_decoder_not_deterministic :
    (decodeFrameDemo c1Frame 0).map TelemetryRecord.confidencePercent = some 85
    ∧ (decodeFrameDemo c1Frame (1/2)).map TelemetryRecord.confidencePercent = some 93
    ∧ decodeFrameDemo c1Frame 0 ≠ decodeFrameDemo c1Frame (1/2) := by
  have h0 : (decodeFrameDemo c1Frame 0).map TelemetryRecord.confidencePercent = some 85 := by
    simp [decodeFrameDemo, c1Frame]
    exact jsRound_eq (by norm_num) (by norm_num)
  have h1 : (decodeFrameDemo c1Frame (1/2)).map TelemetryRecord.confidencePercent = some 93 := by
    simp [decodeFrameDemo, c1Frame]
    exact jsRound_eq (by norm_num) (by norm_num)
  refine ⟨h0, h1, fun heq => ?_⟩
  rw [heq] at h0
  rw [h0] at h1
  exact absurd h1 (by decide)

/-- C3: the commit tail of `_connectAndSetup` re-checks nothing after its
suspend points, so when a user `disconnect()` lands while a monitor-driven
reconnect attempt is suspended at its final await, the resolving attempt
still sets `isConnected = true` and restarts the monitor even though the
device handle has been cleared: the session the user ended is resurrected,
contradicting the claim that the machine is not Connected once the attempt
resolves. -/
theorem c3_disconnect_mid_reconnect_resurrects :
    (resolveReconnect (disconnect inflightReconnectState)).isConnected = true
    ∧ (resolveReconnect (disconnect inflightReconnectState)).deviceName = none
    ∧ (resolveReconnect (disconnect inflightReconnectState)).monitorRunning = true := by
  refine ⟨rfl, rfl, rfl⟩

/-- C4: over every interleaving of monitor ticks, attempt resolutions,
user disconnects and transport drops starting from a freshly connected
link, at most one reconnect attempt is ever in flight, and a tick that
fires while the `isReconnecting` guard is set leaves the machinery
entirely unchanged (the second attempt is dropped, not queued). -/
theorem c4_single_reconnect_in_flight (evs : List LinkEv) :
    (runEvs monitorInit evs).inFlight ≤ 1
    ∧ ((runEvs monitorInit evs).link.isReconnecting = true →
        stepEv (runEvs monitorInit evs) LinkEv.tick = runEvs monitorInit evs) := by
  have hinv : flightInv (runEvs monitorInit evs) :=
    runEvs_flightInv evs monitorInit rfl
  constructor
  · rw [flightInv] at hinv
    rw [hinv]
    split <;> omega
  · intro h
    simp [stepEv, h]

/-- Witness for C4: a transport drop followed by a tick leaves one attempt
in flight, and a further tick in that state is a no-op. -/
theorem c4_single_reconnect_in_flight_witness :
    (runEvs monitorInit [LinkEv.transportDrop, LinkEv.tick]).link.isReconnecting = true
    ∧ stepEv (runEvs monitorInit [LinkEv.transportDrop, LinkEv.tick]) LinkEv.tick =
        runEvs monitorInit [LinkEv.transportDrop, LinkEv.tick] :=
  ⟨by decide,
    (c4_single_reconnect_in_flight [LinkEv.transportDrop, LinkEv.tick]).2 (by decide)⟩

/-- C5 counterexample: a user `disconnect()` of a connected device emits
two connection-change notifications, not exactly one — one synchronously
from `disconnect()` via `handleDisconnect()`, and a second when the
platform delivers the `gattserverdisconnected` event that
`gatt.disconnect()` provoked. -/
theorem c5_user_disconnect_double_notification :
    (wDeliverDisconnectEvent (wDisconnect wConnectedState)).notifications =
      [(false, none), (false, none)]
    ∧ (wDeliverDisconnectEvent (wDisconnect wConnectedState)).notifications.length ≠ 1 := by
  refine ⟨rfl, by decide⟩

/-- C5 amended: a successful connect, a transport-level disconnect on its
own, and a watchdog timeout each emit exactly one connection-change
notification, while a user disconnect of a connected device emits exactly
two (the synchronous one plus the one triggered by the transport's
disconnect event); no connectivity transition is skipped. -/
theorem c5_notification_counts (s : WatchLink) (n : String) (now : ℤ)
    (hd : s.deviceName = some n) (hc : s.isConnected = true)
    (hg : s.gattConnected = true) (ht : 3000 < now - s.lastDataTime) :
    (wConnectSuccess now s).notifications = s.notifications ++ [(true, some n)]
    ∧ (wTransportDisconnect s).notifications = s.notifications ++ [(false, none)]
    ∧ (wWatchdogTick now s).notifications = s.notifications ++ [(false, none)]
    ∧ (wDeliverDisconnectEvent (wDisconnect s)).notifications =
        s.notifications ++ [(false, none), (false, none)] := by
  refine ⟨?_, ?_, ?_, ?_⟩
  · simp [wConnectSuccess, hd]
  · simp [wTransportDisconnect, wHandleDisconnect]
  · simp [wWatchdogTick, hc, ht, wHandleDisconnect]
  · simp [wDisconnect, wDeliverDisconnectEvent, wHandleDisconnect, hd, hg]

/-- Witness for C5 at a concrete connected state. -/
theorem c5_notification_counts_witness :
    wConnectedState.deviceName = some "IoT_ML_Sensor"
    ∧ (wDeliverDisconnectEvent (wDisconnect wConnectedState)).notifications =
        wConnectedState.notifications ++ [(false, none), (false, none)] :=
  ⟨rfl,
    (c5_notification_counts wConnectedState "IoT_ML_Sensor" 5000 rfl rfl rfl
      (by decide)).2.2.2⟩

/-- C6: each ingested record increments `missingPackets` by exactly one
when a previous sequence exists and the new sequence differs from
`(lastSequence + 1) mod 256`, leaves it unchanged otherwise, and always
rebases `lastSequence` to the record's sequence; feeding sequences
0, 1, 2, 4 into a fresh session yields exactly one missing packet. -/
theorem c6_missing_packet_counting (s : SessionStats) (d : TelemetryRecord) (now : ℤ) :
    (ingest d now s).missingPackets =
      (if 0 ≤ s.lastSequence ∧ (d.sequence : ℤ) ≠ (s.lastSequence + 1) % 256 then
        s.missingPackets + 1
      else s.missingPackets)
    ∧ (ingest d now s).lastSequence = (d.sequence : ℤ)
    ∧ (ingestSeqs [0, 1, 2, 4]).missingPackets = 1 :=
  ⟨rfl, rfl, by decide⟩

set_option maxRecDepth 20000 in
/-- C7: ingestion keeps the history buffer at no more than 60 entries in
arrival order — at capacity the oldest entry is evicted, below capacity
the new entry is simply appended — and ingesting 61 consecutive frames
into a fresh session leaves exactly the entries of frames 2 through 61 in
arrival order. -/
theorem c7_history_fifo (s : SessionStats) (d : TelemetryRecord) (now : ℤ)
    (h : s.history.length ≤ 60) :
    (ingest d now s).history.length ≤ 60
    ∧ (s.history.length = 60 →
        (ingest d now s).history = s.history.tail ++ [⟨d.label, d.confidencePercent, now⟩])
    ∧ (s.history.length < 60 →
        (ingest d now s).history = s.history ++ [⟨d.label, d.confidencePercent, now⟩])
    ∧ (ingestRecs ((List.range 61).map (fun i => histRec (i + 1)))).history =
        (List.range 60).map (fun k => ⟨0, (k : ℤ) + 2, 0⟩) := by
  have hconc : (ingestRecs ((List.range 61).map (fun i => histRec (i + 1)))).history =
      (List.range 60).map (fun k => ⟨0, (k : ℤ) + 2, 0⟩) := by decide
  have main : (ingest d now s).history.length ≤ 60
      ∧ (s.history.length = 60 →
          (ingest d now s).history = s.history.tail ++ [⟨d.label, d.confidencePercent, now⟩])
      ∧ (s.history.length < 60 →
          (ingest d now s).history = s.history ++ [⟨d.label, d.confidencePercent, now⟩]) := by
    by_cases hc : s.history.length = 60
    · obtain ⟨a, t, hh⟩ : ∃ a t, s.history = a :: t := by
        cases hx : s.history with
        | nil => rw [hx] at hc; simp at hc
        | cons a t => exact ⟨a, t, rfl⟩
      have ht : t.length = 59 := by rw [hh] at hc; simpa using hc
      have h60 : 60 < (s.history ++ [(⟨d.label, d.confidencePercent, now⟩ : HistEntry)]).length := by
        simp [hc]
      refine ⟨?_, fun _ => ?_, fun hlt => absurd hc (by omega)⟩
      · simp only [ingest, if_pos h60]
        rw [hh]
        simp [ht]
      · simp only [ingest, if_pos h60]
        rw [hh]
        simp
    · have hlt : s.history.length < 60 := lt_of_le_of_ne h hc
      have h60 : ¬ 60 < (s.history ++ [(⟨d.label, d.confidencePercent, now⟩ : HistEntry)]).length := by
        simp
        omega
      refine ⟨?_, fun he => absurd he hc, fun _ => ?_⟩
      · simp only [ingest, if_neg h60]
        simp
        omega
      · simp only [ingest, if_neg h60]
  exact ⟨main.1, main.2.1, main.2.2, hconc⟩

/-- Witness for C7 at a fresh session and one frame. -/
theorem c7_history_fifo_witness :
    (resetStats 0).history.length ≤ 60
    ∧ (ingest (histRec 1) 0 (resetStats 0)).history.length ≤ 60 :=
  ⟨by decide, (c7_history_fifo (resetStats 0) (histRec 1) 0 (by decide)).1⟩

/-- C8: on a stats tick with a started session and at least one elapsed
second, `packetsPerMinute` is recomputed from the cumulative totals as
`round(packetsReceived / elapsedMinutes)` with
`elapsedMinutes = floor((now - start) / 1000) / 60`; in particular 30
received packets after exactly 60 elapsed seconds yield 30. -/
theorem c8_packets_per_minute (s : SessionStats) (t now : ℤ) (hst : s.startTime = some t)
    (hpos : 1 ≤ ⌊((now - t : ℤ) : ℚ) / 1000⌋) :
    (updateStats now s).packetsPerMinute =
      jsRound ((s.packetsReceived : ℚ) / ((⌊((now - t : ℤ) : ℚ) / 1000⌋ : ℚ) / 60))
    ∧ (updateStats 60000 { resetStats 0 with packetsReceived := 30 }).packetsPerMinute = 30 := by
  constructor
  · simp only [updateStats, hst]
    have hq : (0 : ℚ) < (⌊((now - t : ℤ) : ℚ) / 1000⌋ : ℚ) / 60 := by
      have h1 : (1 : ℚ) ≤ (⌊((now - t : ℤ) : ℚ) / 1000⌋ : ℚ) := by exact_mod_cast hpos
      linarith
    rw [if_pos hq]
  · have hfl : (⌊((60000 - 0 : ℤ) : ℚ) / 1000⌋ : ℤ) = 60 := by
      rw [Int.floor_eq_iff] <;> norm_num
    simp [updateStats, resetStats, initialStats, hfl]
    norm_num
    exact jsRound_eq (by norm_num) (by norm_num)

/-- Witness for C8 at a 60-second-old session with 30 packets. -/
theorem c8_packets_per_minute_witness :
    ({ resetStats 0 with packetsReceived := 30 } : SessionStats).startTime = some 0
    ∧ (1 : ℤ) ≤ ⌊((60000 - 0 : ℤ) : ℚ) / 1000⌋
    ∧ (updateStats 60000 { resetStats 0 with packetsReceived := 30 }).packetsPerMinute = 30 := by
  have hpos : (1 : ℤ) ≤ ⌊((60000 - 0 : ℤ) : ℚ) / 1000⌋ := by
    have hfl : (⌊((60000 - 0 : ℤ) : ℚ) / 1000⌋ : ℤ) = 60 := by
      rw [Int.floor_eq_iff] <;> norm_num
    omega
  exact ⟨rfl, hpos,
    (c8_packets_per_minute { resetStats 0 with packetsReceived := 30 } 0 60000 rfl hpos).2⟩

/-- C9: a byte sequence shorter than 8 bytes is rejected by both decoder
revisions and delivers no record downstream, so the aggregator state is
left untouched by that frame. -/
theorem c9_short_frame_no_mutation (bytes : List ℕ) (now : ℤ) (s : SessionStats) (r : ℚ)
    (h : bytes.length < 8) :
    decodeFrame bytes = none ∧ decodeFrameDemo bytes r = none
    ∧ processFrame bytes now s = s := by
  refine ⟨by simp [decodeFrame, h], by simp [decodeFrameDemo, h], ?_⟩
  simp [processFrame, decodeFrame, h]

/-- Witness for C9 at a concrete 3-byte frame. -/
theorem c9_short_frame_no_mutation_witness :
    ([165, 90, 1] : List ℕ).length < 8
    ∧ processFrame [165, 90, 1] 0 initialStats = initialStats :=
  ⟨by decide, (c9_short_frame_no_mutation [165, 90, 1] 0 initialStats 0 (by decide)).2.2⟩

/-- C10: a monitor-driven auto-reconnect changes only the link machinery —
every session statistic (packets received, missing packets, last sequence,
class counts, history, session start time) is exactly preserved — whereas
the user-initiated connect path ends by resetting the statistics to a
fresh session starting now. -/
theorem c10_auto_reconnect_preserves_stats (s : Session) (now : ℤ) (name : String) :
    (sessionMonitorReconnect s).stats.packetsReceived = s.stats.packetsReceived
    ∧ (sessionMonitorReconnect s).stats.missingPackets = s.stats.missingPackets
    ∧ (sessionMonitorReconnect s).stats.lastSequence = s.stats.lastSequence
    ∧ (sessionMonitorReconnect s).stats.classCounts = s.stats.classCounts
    ∧ (sessionMonitorReconnect s).stats.history = s.stats.history
    ∧ (sessionMonitorReconnect s).stats.startTime = s.stats.startTime
    ∧ (sessionUserConnect now name s).stats = resetStats now :=
  ⟨rfl, rfl, rfl, rfl, rfl, rfl, rfl⟩

end BleApp
